import Mathlib

/-!
Shallow embedding of the browser-side layer of the prompt-to-code repository
(src/static/js/app.js): example-list management, form collection and
validation, the generate-pipeline and test-pipeline request cycles, the
health check, and status messaging.  DOM state is modelled explicitly as
records; each network round trip is modelled by a parameter describing the
outcome the browser observes (parsed JSON of a success response, parsed JSON
of a non-ok response, or a thrown transport error).  Each operation returns
the updated UI state together with the ordered list of observable events it
performed (button disable/enable, network request issued, error shown).
-/

/-- One entry of the examples container (a div with class example-item):
its dataset identifier (data-example-id), the number currently shown in its
"Example N" header span, and the contents of its two textareas. -/
structure ExampleEntry where
  id : Nat
  label : Nat
  input : String
  output : String
  deriving Repr, DecidableEq

/-- Client-local state of the example list: the module-level exampleCount
counter and the ordered entries of the examples container. -/
structure ExamplesState where
  exampleCount : Nat
  entries : List ExampleEntry
  deriving Repr, DecidableEq

/-- State at page load: exampleCount = 0 and an empty container. -/
def initExamples : ExamplesState := { exampleCount := 0, entries := [] }

/-- addExample (app.js lines 62-88): increments exampleCount and appends a
fresh empty entry whose data-example-id and displayed number are both the
new counter value (the span text is rendered from exampleCount). -/
def addExample (s : ExamplesState) : ExamplesState :=
  { exampleCount := s.exampleCount + 1
    entries := s.entries ++
      [{ id := s.exampleCount + 1, label := s.exampleCount + 1,
         input := "", output := "" }] }

/-- The renumbering pass of removeExample (app.js lines 98-102), started at
position i: each remaining entry's number span is set to its 1-based index
in the container. -/
def relabelFrom (i : Nat) : List ExampleEntry → List ExampleEntry
  | [] => []
  | e :: rest => { e with label := i } :: relabelFrom (i + 1) rest

/-- Renumber all entries by 1-based position. -/
def relabel (es : List ExampleEntry) : List ExampleEntry := relabelFrom 1 es

/-- Removal of the first entry whose data-example-id matches the argument;
document.querySelector returns the first match in document order, and the
entry is removed only when such a match exists (app.js lines 92-95). -/
def removeFirst (id : Nat) : List ExampleEntry → List ExampleEntry
  | [] => []
  | e :: rest => if e.id = id then rest else e :: removeFirst id rest

/-- removeExample (app.js lines 91-103): deletes the first matching entry if
any, then unconditionally renumbers every remaining entry by position. -/
def removeExample (id : Nat) (s : ExamplesState) : ExamplesState :=
  { s with entries := relabel (removeFirst id s.entries) }

/-- A user operation on the example list. -/
inductive ExampleOp
  | add
  | remove (id : Nat)
  deriving Repr, DecidableEq

/-- Apply one example-list operation. -/
def applyExampleOp (s : ExamplesState) : ExampleOp → ExamplesState
  | ExampleOp.add => addExample s
  | ExampleOp.remove id => removeExample id s

/-- Run a sequence of add/remove operations from the page-load state. -/
def runExampleOps (ops : List ExampleOp) : ExamplesState :=
  ops.foldl applyExampleOp initExamples

/-- The dataset identifiers of the current entries, in container order. -/
def entryIds (s : ExamplesState) : List Nat := s.entries.map ExampleEntry.id

/-- The displayed numbers of the current entries, in container order. -/
def entryLabels (s : ExamplesState) : List Nat :=
  s.entries.map ExampleEntry.label

/-- Every entry's displayed number equals its current 1-based position, so
the visible numbering is contiguously 1..(number of entries). -/
abbrev positionallyLabeled (s : ExamplesState) : Prop :=
  entryLabels s = List.range' 1 s.entries.length

/-- The raw current form values read by collectFormData: the four scalar
controls plus the (input, output) textarea contents of each example item in
container order. -/
structure FormInput where
  taskDescription : String
  inputType : String
  outputType : String
  ollamaModel : String
  examples : List (String × String)
  deriving Repr, DecidableEq

/-- The request payload built by collectFormData. -/
structure FormData where
  taskDescription : String
  inputType : String
  outputType : String
  ollamaModel : String
  examples : List (String × String)
  deriving Repr, DecidableEq

/-- Whitespace trimming as performed by the JS String.prototype.trim
calls of app.js, implemented structurally on the character list (drop
leading and trailing whitespace) so that it evaluates by kernel
reduction. -/
def trimChars (cs : List Char) : List Char :=
  ((cs.dropWhile Char.isWhitespace).reverse.dropWhile Char.isWhitespace).reverse

/-- Trim a string, as value.trim() in app.js. -/
def jsTrim (s : String) : String := String.mk (trimChars s.data)

/-- collectFormData (app.js lines 106-135): trims the task description and
model name (defaulting the model to llama3.2 when blank), and keeps exactly
the example pairs whose trimmed input and trimmed output are both
non-empty, storing the trimmed values. -/
def collectFormData (f : FormInput) : FormData :=
  { taskDescription := jsTrim f.taskDescription
    inputType := f.inputType
    outputType := f.outputType
    ollamaModel :=
      if jsTrim f.ollamaModel = "" then "llama3.2" else jsTrim f.ollamaModel
    examples := f.examples.filterMap fun p =>
      if jsTrim p.1 ≠ "" ∧ jsTrim p.2 ≠ "" then some (jsTrim p.1, jsTrim p.2)
      else none }

/-- validateFormData (app.js lines 138-150), with the showError side effect
lifted out: returns the error message shown on failure, or none when the
data passes (empty-string task description is falsy in JS). -/
def validateFormData (d : FormData) : Option String :=
  if d.taskDescription = "" then some "Please provide a task description"
  else if d.examples = [] then some "Please provide at least one example"
  else none

/-- Fields of a parsed success response of /api/generate-pipeline consumed
by the client. -/
structure GenResult where
  sessionId : String
  optimizationSuccess : Bool
  optimizationMessage : String
  pipelineCode : String
  syntheticPrompt : String
  filesGenerated : List String
  deriving Repr, DecidableEq

/-- Outcome of the generate-pipeline round trip as observed by the client:
an ok response with parsed body, a non-ok response whose parsed body may or
may not carry an error field, or a thrown transport error (fetch or JSON
parsing failed) with the thrown message. -/
inductive GenResponse
  | success (result : GenResult)
  | httpFailure (errorField : Option String)
  | transportFailure (message : String)
  deriving Repr, DecidableEq

/-- A rendered download link: its href, its visible text, and its download
attribute. -/
structure DownloadLink where
  href : String
  text : String
  download : String
  deriving Repr, DecidableEq

/-- The status-message element: its class attribute and text content. -/
structure StatusMessage where
  klass : String
  text : String
  deriving Repr, DecidableEq

/-- The slice of page state touched by the generate and test flows. -/
structure UIState where
  sessionId : Option String
  statusMessage : StatusMessage
  resultsVisible : Bool
  testSectionVisible : Bool
  loadingVisible : Bool
  generateBtnDisabled : Bool
  testBtnDisabled : Bool
  pipelineCode : String
  syntheticPrompt : String
  downloadLinks : List DownloadLink
  testOutputVisible : Bool
  testResult : String
  deriving Repr, DecidableEq

/-- Page state at load time: no session, everything hidden and enabled. -/
def initUI : UIState :=
  { sessionId := none
    statusMessage := { klass := "", text := "" }
    resultsVisible := false
    testSectionVisible := false
    loadingVisible := false
    generateBtnDisabled := false
    testBtnDisabled := false
    pipelineCode := ""
    syntheticPrompt := ""
    downloadLinks := []
    testOutputVisible := false
    testResult := "" }

/-- Observable events of one handler run, in execution order. -/
inductive UIEvent
  | genDisabled (b : Bool)
  | testDisabled (b : Bool)
  | generateRequest (payload : FormData)
  | testRequest (sessionId : String) (testInput : String)
  | errorShown (message : String)
  deriving Repr, DecidableEq

/-- showError (app.js lines 324-339): reveals the results section and sets
the status message to error styling with the error marker prefix.  (The
delayed auto-hide timer is outside this state-transition model.) -/
def showError (message : String) (ui : UIState) : UIState :=
  { ui with
    resultsVisible := true
    statusMessage := { klass := "message error", text := "✗ " ++ message } }

/-- displayResults (app.js lines 199-240): reveals the results section,
styles the status message by the optimization flag and shows or hides the
test section accordingly, sets the code and prompt panes, and replaces the
download-links container content with one link per generated file. -/
def displayResults (result : GenResult) (ui : UIState) : UIState :=
  { ui with
    resultsVisible := true
    statusMessage :=
      if result.optimizationSuccess then
        { klass := "message success", text := "✓ " ++ result.optimizationMessage }
      else
        { klass := "message warning", text := "⚠ " ++ result.optimizationMessage }
    testSectionVisible := result.optimizationSuccess
    pipelineCode := result.pipelineCode
    syntheticPrompt := result.syntheticPrompt
    downloadLinks := result.filesGenerated.map fun filename =>
      { href := "/api/download/" ++ filename
        text := "📥 Download " ++ filename
        download := filename } }

/-- The message thrown for a non-ok generate response (app.js line 181):
the error field when it is truthy (present and non-empty), otherwise the
generic failure message. -/
def genErrorMessage : Option String → String
  | some e => if e = "" then "Failed to generate pipeline" else e
  | none => "Failed to generate pipeline"

/-- generatePipeline (app.js lines 153-196): collect and validate the form
(validation failure shows an error and makes no request); otherwise disable
the generate button, show the loading indicator, hide results, POST the
payload, and on an ok response store the session id and display the
results, on a non-ok response or a thrown error show the error message; the
finally block re-enables the button and hides the loading indicator on
every outcome. -/
def generatePipeline (f : FormInput) (net : GenResponse) (ui : UIState) :
    UIState × List UIEvent :=
  let data := collectFormData f
  match validateFormData data with
  | some msg => (showError msg ui, [UIEvent.errorShown msg])
  | none =>
    let ui1 := { ui with
      generateBtnDisabled := true, loadingVisible := true,
      resultsVisible := false }
    match net with
    | GenResponse.success result =>
        let ui2 := displayResults result { ui1 with sessionId := some result.sessionId }
        ({ ui2 with generateBtnDisabled := false, loadingVisible := false },
         [UIEvent.genDisabled true, UIEvent.generateRequest data,
          UIEvent.genDisabled false])
    | GenResponse.httpFailure errorField =>
        let msg := genErrorMessage errorField
        ({ showError msg ui1 with
            generateBtnDisabled := false, loadingVisible := false },
         [UIEvent.genDisabled true, UIEvent.generateRequest data,
          UIEvent.errorShown msg, UIEvent.genDisabled false])
    | GenResponse.transportFailure message =>
        ({ showError message ui1 with
            generateBtnDisabled := false, loadingVisible := false },
         [UIEvent.genDisabled true, UIEvent.generateRequest data,
          UIEvent.errorShown message, UIEvent.genDisabled false])

/-- Outcome of the test-pipeline round trip as observed by the client. -/
inductive TestResponse
  | success (outputText : String) (note : Option String)
  | httpFailure (errorField : Option String)
  | transportFailure (message : String)
  deriving Repr, DecidableEq

/-- The message thrown for a non-ok test response (app.js line 274). -/
def testErrorMessage : Option String → String
  | some e => if e = "" then "Failed to test pipeline" else e
  | none => "Failed to test pipeline"

/-- The text placed in the test-result pane (app.js lines 282-286): the
output, with the advisory note appended when it is truthy. -/
def testResultText (outputText : String) : Option String → String
  | some n => if n = "" then outputText else outputText ++ "\n\nNote: " ++ n
  | none => outputText

/-- testPipeline (app.js lines 243-293): an empty trimmed test input or a
falsy session id (null, or the empty string) shows an error and makes no
request; otherwise the test button is disabled, the request is POSTed with
the stored session id and trimmed input, a success response fills and
reveals the test-output pane, a non-ok response or thrown error shows the
error message, and the finally block re-enables the button on every
outcome. -/
def testPipeline (rawInput : String) (net : TestResponse) (ui : UIState) :
    UIState × List UIEvent :=
  let testInput := jsTrim rawInput
  if testInput = "" then
    (showError "Please provide test input" ui,
     [UIEvent.errorShown "Please provide test input"])
  else
    match ui.sessionId with
    | none =>
        (showError "No pipeline session found" ui,
         [UIEvent.errorShown "No pipeline session found"])
    | some sid =>
        if sid = "" then
          (showError "No pipeline session found" ui,
           [UIEvent.errorShown "No pipeline session found"])
        else
          let ui1 := { ui with testBtnDisabled := true }
          match net with
          | TestResponse.success outputText note =>
              ({ ui1 with
                  testBtnDisabled := false
                  testOutputVisible := true
                  testResult := testResultText outputText note },
               [UIEvent.testDisabled true, UIEvent.testRequest sid testInput,
                UIEvent.testDisabled false])
          | TestResponse.httpFailure errorField =>
              let msg := testErrorMessage errorField
              ({ showError msg ui1 with testBtnDisabled := false },
               [UIEvent.testDisabled true, UIEvent.testRequest sid testInput,
                UIEvent.errorShown msg, UIEvent.testDisabled false])
          | TestResponse.transportFailure message =>
              ({ showError message ui1 with testBtnDisabled := false },
               [UIEvent.testDisabled true, UIEvent.testRequest sid testInput,
                UIEvent.errorShown message, UIEvent.testDisabled false])

/-- Outcome of the /api/health round trip as observed by the client: a
response whose parsed body carries a status string and an ollama runtime
string, or a thrown error (fetch or JSON parsing failed). -/
inductive HealthResponse
  | success (status : String) (ollama : String)
  | failure
  deriving Repr, DecidableEq

/-- The health-status element: its text content and class attribute. -/
structure HealthIndicator where
  text : String
  klass : String
  deriving Repr, DecidableEq

/-- checkHealth (app.js lines 13-31): positive indicator exactly for
status healthy with ollama running; any other body shows the
start-the-runtime warning; a thrown error shows the cannot-connect
message. -/
def checkHealth : HealthResponse → HealthIndicator
  | HealthResponse.success status ollama =>
      if status = "healthy" ∧ ollama = "running" then
        { text := "✓ Ollama is running", klass := "health-status healthy" }
      else
        { text := "⚠ Ollama is not running - Run: ollama serve"
          klass := "health-status unhealthy" }
  | HealthResponse.failure =>
      { text := "✗ Cannot connect to backend"
        klass := "health-status unhealthy" }

/-- A concrete form state with a valid task description and one example
whose input and output are both non-empty. -/
def sampleForm : FormInput :=
  { taskDescription := "Summarize text"
    inputType := "text"
    outputType := "text"
    ollamaModel := ""
    examples := [("Hello world", "Greeting")] }

/-- A concrete form state whose task description trims to the empty
string. -/
def blankForm : FormInput :=
  { taskDescription := " "
    inputType := "text"
    outputType := "text"
    ollamaModel := ""
    examples := [("a", "b")] }

/-- A concrete page state holding a session identifier from a prior
successful generation. -/
def uiWithSession : UIState := { initUI with sessionId := some "sess" }

/-! ### Lemmas about the example list -/

/-- The renumbering pass labels the entries i, i+1, ... in order. -/
theorem relabelFrom_labels (es : List ExampleEntry) :
    ∀ i, (relabelFrom i es).map ExampleEntry.label = List.range' i es.length := by
  induction es with
  | nil => intro i; simp [relabelFrom]
  | cons e rest ih =>
      intro i
      simp [relabelFrom, List.range'_succ, ih]

/-- The renumbering pass keeps the number of entries. -/
theorem relabelFrom_length (es : List ExampleEntry) :
    ∀ i, (relabelFrom i es).length = es.length := by
  induction es with
  | nil => intro i; rfl
  | cons e rest ih => intro i; simp [relabelFrom, ih]

/-- The renumbering pass keeps each entry's identifier and textareas. -/
theorem relabelFrom_data (es : List ExampleEntry) :
    ∀ i, (relabelFrom i es).map (fun e => (e.id, e.input, e.output)) =
      es.map (fun e => (e.id, e.input, e.output)) := by
  induction es with
  | nil => intro i; rfl
  | cons e rest ih => intro i; simp [relabelFrom, ih]

/-- The renumbering pass keeps the identifier sequence. -/
theorem relabelFrom_ids (es : List ExampleEntry) :
    ∀ i, (relabelFrom i es).map ExampleEntry.id = es.map ExampleEntry.id := by
  induction es with
  | nil => intro i; rfl
  | cons e rest ih => intro i; simp [relabelFrom, ih]

/-- After any removeExample call the entries are numbered by position. -/
theorem removeExample_positionallyLabeled (id : Nat) (s : ExamplesState) :
    positionallyLabeled (removeExample id s) := by
  show entryLabels _ = _
  simp [entryLabels, removeExample, relabel, relabelFrom_labels, relabelFrom_length]

/-- On identifiers, removing the first matching entry is List.erase. -/
theorem removeFirst_ids (id : Nat) (es : List ExampleEntry) :
    (removeFirst id es).map ExampleEntry.id = (es.map ExampleEntry.id).erase id := by
  induction es with
  | nil => simp [removeFirst]
  | cons e rest ih =>
      by_cases h : e.id = id
      · simp [removeFirst, h, List.erase_cons]
      · simp [removeFirst, h, List.erase_cons, ih]

/-- Removing an identifier that matches no entry removes nothing. -/
theorem removeFirst_not_mem (id : Nat) (es : List ExampleEntry)
    (h : id ∉ es.map ExampleEntry.id) : removeFirst id es = es := by
  induction es with
  | nil => rfl
  | cons e rest ih =>
      simp only [List.map_cons, List.mem_cons, not_or] at h
      have hne : ¬ e.id = id := by
        intro h'
        exact h.1 h'.symm
      simp only [removeFirst, if_neg hne]
      rw [ih h.2]

/-- Length after erasing distinct members, one by one. -/
theorem foldl_erase_length (rs : List Nat) : ∀ l : List Nat, rs.Nodup →
    (∀ r ∈ rs, r ∈ l) →
    (rs.foldl List.erase l).length = l.length - rs.length := by
  induction rs with
  | nil => intro l _ _; simp
  | cons r rest ih =>
      intro l hnd hmem
      simp only [List.foldl_cons, List.length_cons]
      have hr : r ∈ l := hmem r (by simp)
      have hnd' : rest.Nodup := (List.nodup_cons.mp hnd).2
      have hmem' : ∀ x ∈ rest, x ∈ l.erase r := by
        intro x hx
        have hne : x ≠ r := by
          intro he
          exact (List.nodup_cons.mp hnd).1 (he ▸ hx)
        exact (List.mem_erase_of_ne hne).mpr (hmem x (List.mem_cons_of_mem _ hx))
      rw [ih (l.erase r) hnd' hmem', List.length_erase_of_mem hr]
      omega

/-- Running a batch of removals acts on the identifier sequence as
iterated List.erase. -/
theorem removesFold_ids (rs : List Nat) : ∀ s : ExamplesState,
    entryIds ((rs.map ExampleOp.remove).foldl applyExampleOp s) =
      rs.foldl List.erase (entryIds s) := by
  induction rs with
  | nil => intro s; rfl
  | cons r rest ih =>
      intro s
      simp only [List.map_cons, List.foldl_cons]
      rw [ih]
      congr 1
      show entryIds (removeExample r s) = (entryIds s).erase r
      simp [entryIds, removeExample, relabel, relabelFrom_ids, removeFirst_ids]

/-- Positional numbering survives any batch of removals. -/
theorem removesFold_positionallyLabeled (rs : List Nat) : ∀ s : ExamplesState,
    positionallyLabeled s →
    positionallyLabeled ((rs.map ExampleOp.remove).foldl applyExampleOp s) := by
  induction rs with
  | nil => intro s h; exact h
  | cons r rest ih =>
      intro s _
      simp only [List.map_cons, List.foldl_cons]
      exact ih _ (removeExample_positionallyLabeled r s)

/-- Explicit form of the state after N consecutive adds from page load. -/
theorem runAdds (N : Nat) :
    runExampleOps (List.replicate N ExampleOp.add) =
      { exampleCount := N
        entries := (List.range' 1 N).map fun i =>
          { id := i, label := i, input := "", output := "" } } := by
  induction N with
  | zero => rfl
  | succ n ih =>
      have h1 : List.replicate (n + 1) ExampleOp.add =
          List.replicate n ExampleOp.add ++ [ExampleOp.add] :=
        List.replicate_succ' n _
      simp only [runExampleOps] at ih ⊢
      rw [h1, List.foldl_append, ih]
      simp [applyExampleOp, addExample, List.range'_concat, Nat.add_comm]

/-- After N consecutive adds the entries are numbered by position. -/
theorem runAdds_positionallyLabeled (N : Nat) :
    positionallyLabeled (runExampleOps (List.replicate N ExampleOp.add)) := by
  rw [runAdds]
  have h1 : (ExampleEntry.label ∘ fun i =>
      ({ id := i, label := i, input := "", output := "" } : ExampleEntry)) = id := rfl
  show entryLabels _ = _
  simp only [entryLabels]
  rw [List.map_map, h1, List.map_id, List.length_map, List.length_range']

/-- After N consecutive adds the identifiers are 1..N. -/
theorem runAdds_entryIds (N : Nat) :
    entryIds (runExampleOps (List.replicate N ExampleOp.add)) = List.range' 1 N := by
  rw [runAdds]
  have h1 : (ExampleEntry.id ∘ fun i =>
      ({ id := i, label := i, input := "", output := "" } : ExampleEntry)) = id := rfl
  simp only [entryIds]
  rw [List.map_map, h1, List.map_id]

/-! ### Claims about the example list -/

/-- Claim C1, counterexample: after the operation sequence add, add,
remove 1, add, the two remaining entries are displayed as Example 1 and
Example 3 rather than by their 1-based positions, because addExample labels
the new entry with the exampleCount counter, not with its position. -/
theorem addAfterRemove_breaks_contiguity :
    entryLabels (runExampleOps
        [ExampleOp.add, ExampleOp.add, ExampleOp.remove 1, ExampleOp.add]) = [1, 3]
    ∧ ¬ positionallyLabeled (runExampleOps
        [ExampleOp.add, ExampleOp.add, ExampleOp.remove 1, ExampleOp.add]) := by
  constructor
  · rfl
  · decide

/-- Claim C1, amended: the add operation labels the new entry with its
sequential identifier (which coincides with its position only as long as no
entry was ever removed), and every remove renumbers by position; hence
after adding N examples and then removing any K distinct identifiers among
the N created ones, the remaining N-K entries are numbered contiguously
1..(N-K). -/
theorem addsThenRemoves_labels_contiguous (N : Nat) (rs : List Nat)
    (hnd : rs.Nodup) (hmem : ∀ r ∈ rs, r ∈ List.range' 1 N) :
    positionallyLabeled (runExampleOps
        (List.replicate N ExampleOp.add ++ rs.map ExampleOp.remove))
    ∧ (runExampleOps
        (List.replicate N ExampleOp.add ++ rs.map ExampleOp.remove)).entries.length
        = N - rs.length := by
  have hsplit :
      runExampleOps (List.replicate N ExampleOp.add ++ rs.map ExampleOp.remove)
        = (rs.map ExampleOp.remove).foldl applyExampleOp
            (runExampleOps (List.replicate N ExampleOp.add)) := by
    simp only [runExampleOps, List.foldl_append]
  constructor
  · rw [hsplit]
    exact removesFold_positionallyLabeled rs _ (runAdds_positionallyLabeled N)
  · rw [hsplit]
    have hids := removesFold_ids rs (runExampleOps (List.replicate N ExampleOp.add))
    have hlen : ((rs.map ExampleOp.remove).foldl applyExampleOp
        (runExampleOps (List.replicate N ExampleOp.add))).entries.length
        = (rs.foldl List.erase (List.range' 1 N)).length := by
      rw [← runAdds_entryIds N, ← hids]
      simp [entryIds]
    rw [hlen, foldl_erase_length rs (List.range' 1 N) hnd hmem]
    simp

/-- Witness for the amended claim C1 at N = 2, removals [1]. -/
theorem addsThenRemoves_labels_contiguous_witness :
    ([1] : List Nat).Nodup ∧ (∀ r ∈ ([1] : List Nat), r ∈ List.range' 1 2)
    ∧ (positionallyLabeled (runExampleOps
          (List.replicate 2 ExampleOp.add ++ ([1] : List Nat).map ExampleOp.remove))
       ∧ (runExampleOps
          (List.replicate 2 ExampleOp.add ++ ([1] : List Nat).map ExampleOp.remove)).entries.length
          = 2 - ([1] : List Nat).length) :=
  ⟨by decide, by decide,
   addsThenRemoves_labels_contiguous 2 [1] (by decide) (by decide)⟩

/-- Claim C10: removing an identifier that matches no current entry deletes
nothing and preserves every entry's identifier and textarea data, and the
renumbering pass that still runs leaves every remaining entry labeled by
its current 1-based position. -/
theorem removeExample_absent_id_safe (id : Nat) (s : ExamplesState)
    (h : id ∉ entryIds s) :
    (removeExample id s).entries.length = s.entries.length
    ∧ (removeExample id s).entries.map (fun e => (e.id, e.input, e.output))
        = s.entries.map (fun e => (e.id, e.input, e.output))
    ∧ positionallyLabeled (removeExample id s) := by
  refine ⟨?_, ?_, removeExample_positionallyLabeled id s⟩
  · simp [removeExample, relabel, relabelFrom_length,
      removeFirst_not_mem id s.entries h]
  · simp [removeExample, relabel, relabelFrom_data,
      removeFirst_not_mem id s.entries h]

/-- Witness for claim C10 at the two-entry state and absent identifier 5. -/
theorem removeExample_absent_id_safe_witness :
    (5 ∉ entryIds (runExampleOps [ExampleOp.add, ExampleOp.add]))
    ∧ ((removeExample 5 (runExampleOps [ExampleOp.add, ExampleOp.add])).entries.length
          = (runExampleOps [ExampleOp.add, ExampleOp.add]).entries.length
       ∧ (removeExample 5 (runExampleOps [ExampleOp.add, ExampleOp.add])).entries.map
            (fun e => (e.id, e.input, e.output))
          = (runExampleOps [ExampleOp.add, ExampleOp.add]).entries.map
            (fun e => (e.id, e.input, e.output))
       ∧ positionallyLabeled (removeExample 5 (runExampleOps [ExampleOp.add, ExampleOp.add]))) :=
  ⟨by decide, removeExample_absent_id_safe 5 _ (by decide)⟩

/-! ### Lemmas about form validation -/

/-- The collected data passes validateFormData exactly when the trimmed
task description is non-empty and some example pair has both trimmed
fields non-empty. -/
theorem validate_collect_eq_none (f : FormInput) :
    validateFormData (collectFormData f) = none ↔
      (jsTrim f.taskDescription ≠ "" ∧
        ∃ p ∈ f.examples, jsTrim p.1 ≠ "" ∧ jsTrim p.2 ≠ "") := by
  by_cases h1 : jsTrim f.taskDescription = ""
  · simp [validateFormData, collectFormData, h1]
  · simp [validateFormData, collectFormData, h1, List.filterMap_eq_nil_iff]

/-! ### Claims about the generate flow -/

/-- Claim C2: generatePipeline issues a network request only when the
trimmed task description is non-empty and some example has both trimmed
input and output non-empty; when either condition fails it shows an
error-styled message in the revealed results section and issues no
request. -/
theorem generate_validates_before_request (f : FormInput) (net : GenResponse)
    (ui : UIState) :
    ((∃ p, UIEvent.generateRequest p ∈ (generatePipeline f net ui).2) →
      jsTrim f.taskDescription ≠ "" ∧
        ∃ p ∈ f.examples, jsTrim p.1 ≠ "" ∧ jsTrim p.2 ≠ "")
    ∧ ((jsTrim f.taskDescription = "" ∨
          ∀ p ∈ f.examples, jsTrim p.1 = "" ∨ jsTrim p.2 = "") →
        (∀ p, UIEvent.generateRequest p ∉ (generatePipeline f net ui).2)
        ∧ (generatePipeline f net ui).1.statusMessage.klass = "message error"
        ∧ (generatePipeline f net ui).1.resultsVisible = true) := by
  cases hv : validateFormData (collectFormData f) with
  | some msg =>
      constructor
      · rintro ⟨p, hp⟩
        simp [generatePipeline, hv] at hp
      · intro _
        refine ⟨?_, ?_, ?_⟩
        · intro p
          simp [generatePipeline, hv]
        · simp [generatePipeline, hv, showError]
        · simp [generatePipeline, hv, showError]
  | none =>
      constructor
      · intro _
        exact (validate_collect_eq_none f).mp hv
      · intro hbad
        exfalso
        have hconds := (validate_collect_eq_none f).mp hv
        rcases hbad with h | h
        · exact hconds.1 h
        · rcases hconds.2 with ⟨p, hp, h1, h2⟩
          rcases h p hp with h' | h'
          · exact h1 h'
          · exact h2 h'

/-- Witness for claim C2 at a blank task description. -/
theorem generate_validates_before_request_witness :
    UIEvent.generateRequest (collectFormData blankForm) ∉
        (generatePipeline blankForm (GenResponse.transportFailure "x") initUI).2
    ∧ (generatePipeline blankForm (GenResponse.transportFailure "x") initUI).1.statusMessage.klass
        = "message error"
    ∧ (generatePipeline blankForm (GenResponse.transportFailure "x") initUI).1.resultsVisible
        = true :=
  ⟨((generate_validates_before_request blankForm (GenResponse.transportFailure "x") initUI).2
      (Or.inl (by decide))).1 _,
   ((generate_validates_before_request blankForm (GenResponse.transportFailure "x") initUI).2
      (Or.inl (by decide))).2.1,
   ((generate_validates_before_request blankForm (GenResponse.transportFailure "x") initUI).2
      (Or.inl (by decide))).2.2⟩

/-- Claim C3: displayResults shows a success-styled status message and
reveals the test section when optimizationSuccess is true, and shows a
warning-styled status message and keeps the test section hidden when it is
false. -/
theorem displayResults_styles_by_optimization (result : GenResult) (ui : UIState) :
    (displayResults result ui).testSectionVisible = result.optimizationSuccess
    ∧ (displayResults result ui).statusMessage =
        (if result.optimizationSuccess then
          { klass := "message success", text := "✓ " ++ result.optimizationMessage }
        else
          { klass := "message warning", text := "⚠ " ++ result.optimizationMessage }) :=
  ⟨rfl, rfl⟩

/-- Claim C4: the session identifier is overwritten exactly by a generate
run that passes validation and receives an ok response, and is left
unchanged on validation failure, on a non-ok response, and on a transport
error. -/
theorem sessionId_overwritten_only_by_success (f : FormInput) (net : GenResponse)
    (ui : UIState) :
    (generatePipeline f net ui).1.sessionId =
      (match validateFormData (collectFormData f), net with
       | none, GenResponse.success result => some result.sessionId
       | _, _ => ui.sessionId) := by
  cases hv : validateFormData (collectFormData f) with
  | some msg => simp [generatePipeline, hv, showError]
  | none => cases net <;> simp [generatePipeline, hv, showError, displayResults]

/-! ### Claims about the test flow -/

/-- Claim C5: testPipeline issues a network request only when the trimmed
test input is non-empty and a session identifier is stored; when the input
trims empty or no session identifier is stored it shows an error-styled
message and issues no request. -/
theorem test_requires_input_and_session (rawInput : String) (net : TestResponse)
    (ui : UIState) :
    ((∃ sid ti, UIEvent.testRequest sid ti ∈ (testPipeline rawInput net ui).2) →
      jsTrim rawInput ≠ "" ∧ ui.sessionId.isSome = true)
    ∧ ((jsTrim rawInput = "" ∨ ui.sessionId = none) →
        (∀ sid ti, UIEvent.testRequest sid ti ∉ (testPipeline rawInput net ui).2)
        ∧ (testPipeline rawInput net ui).1.statusMessage.klass = "message error"
        ∧ (testPipeline rawInput net ui).1.resultsVisible = true) := by
  by_cases h1 : jsTrim rawInput = ""
  · refine ⟨?_, ?_⟩
    · rintro ⟨sid, ti, hmem⟩
      simp [testPipeline, h1] at hmem
    · intro _
      refine ⟨?_, ?_, ?_⟩
      · intro sid ti
        simp [testPipeline, h1]
      · simp [testPipeline, h1, showError]
      · simp [testPipeline, h1, showError]
  · cases hs : ui.sessionId with
    | none =>
        refine ⟨?_, ?_⟩
        · rintro ⟨sid, ti, hmem⟩
          simp [testPipeline, h1, hs] at hmem
        · intro _
          refine ⟨?_, ?_, ?_⟩
          · intro sid ti
            simp [testPipeline, h1, hs]
          · simp [testPipeline, h1, hs, showError]
          · simp [testPipeline, h1, hs, showError]
    | some sid0 =>
        refine ⟨?_, ?_⟩
        · intro _
          exact ⟨h1, by simp [hs]⟩
        · intro hbad
          rcases hbad with h | h
          · exact absurd h h1
          · exact absurd h (by simp)

/-- Witness for claim C5 with non-empty input but no stored session. -/
theorem test_requires_input_and_session_witness :
    UIEvent.testRequest "s" "t" ∉
        (testPipeline "hi" (TestResponse.transportFailure "x") initUI).2
    ∧ (testPipeline "hi" (TestResponse.transportFailure "x") initUI).1.statusMessage.klass
        = "message error"
    ∧ (testPipeline "hi" (TestResponse.transportFailure "x") initUI).1.resultsVisible
        = true :=
  ⟨((test_requires_input_and_session "hi" (TestResponse.transportFailure "x") initUI).2
      (Or.inr rfl)).1 "s" "t",
   ((test_requires_input_and_session "hi" (TestResponse.transportFailure "x") initUI).2
      (Or.inr rfl)).2.1,
   ((test_requires_input_and_session "hi" (TestResponse.transportFailure "x") initUI).2
      (Or.inr rfl)).2.2⟩

/-! ### Claims about error surfacing and rendering -/

/-- Claim C6, counterexample: for a non-ok response whose body carries the
error field present but equal to the empty string, the displayed text is
the error marker followed by the generic failure message rather than by the
error field, because the code tests the field for truthiness, not for
presence. -/
theorem emptyErrorField_shows_generic :
    (generatePipeline sampleForm (GenResponse.httpFailure (some "")) initUI).1.statusMessage.text
      = "✗ Failed to generate pipeline"
    ∧ (generatePipeline sampleForm (GenResponse.httpFailure (some "")) initUI).1.statusMessage.text
      ≠ "✗ " ++ "" := by
  refine ⟨?_, ?_⟩ <;> decide

/-- Claim C6, amended: for every non-ok response to a generate run that
passed validation, the displayed text is the error marker followed by the
error field when that field is present and non-empty, and by the generic
failure message when the field is absent or empty. -/
theorem httpFailure_error_message (f : FormInput) (errorField : Option String)
    (ui : UIState) (hv : validateFormData (collectFormData f) = none) :
    (generatePipeline f (GenResponse.httpFailure errorField) ui).1.statusMessage.klass
      = "message error"
    ∧ (generatePipeline f (GenResponse.httpFailure errorField) ui).1.statusMessage.text
      = "✗ " ++ (match errorField with
          | some e => if e = "" then "Failed to generate pipeline" else e
          | none => "Failed to generate pipeline") := by
  refine ⟨?_, ?_⟩ <;>
    cases errorField <;>
    simp [generatePipeline, hv, showError, genErrorMessage]

/-- Witness for the amended claim C6 with error field model not found. -/
theorem httpFailure_error_message_witness :
    validateFormData (collectFormData sampleForm) = none
    ∧ ((generatePipeline sampleForm (GenResponse.httpFailure (some "model not found")) initUI).1.statusMessage.klass
        = "message error"
       ∧ (generatePipeline sampleForm (GenResponse.httpFailure (some "model not found")) initUI).1.statusMessage.text
        = "✗ " ++ (match (some "model not found" : Option String) with
            | some e => if e = "" then "Failed to generate pipeline" else e
            | none => "Failed to generate pipeline")) :=
  ⟨by decide,
   httpFailure_error_message sampleForm (some "model not found") initUI (by decide)⟩

/-- Claim C7: displayResults replaces the content of the download-links
container by exactly one link per entry of filesGenerated, in list order,
each with href /api/download/ followed by that filename, independent of
whatever links were rendered before. -/
theorem displayResults_download_links (result : GenResult) (ui : UIState) :
    (displayResults result ui).downloadLinks
      = result.filesGenerated.map fun filename =>
          { href := "/api/download/" ++ filename
            text := "📥 Download " ++ filename
            download := filename } :=
  rfl

/-! ### Claim about the health check -/

/-- Claim C8: the health indicator is positive exactly for a body with
status healthy and ollama running; any other body shows the negative
indicator with the start-the-runtime guidance; a failed request shows the
negative indicator with the distinct cannot-connect message. -/
theorem checkHealth_display_policy (status ollama : String) :
    ((checkHealth (HealthResponse.success status ollama)).klass
        = "health-status healthy"
      ↔ (status = "healthy" ∧ ollama = "running"))
    ∧ (¬ (status = "healthy" ∧ ollama = "running") →
        checkHealth (HealthResponse.success status ollama) =
          { text := "⚠ Ollama is not running - Run: ollama serve"
            klass := "health-status unhealthy" })
    ∧ checkHealth HealthResponse.failure =
        { text := "✗ Cannot connect to backend"
          klass := "health-status unhealthy" }
    ∧ (checkHealth HealthResponse.failure).text ≠
        (checkHealth (HealthResponse.success "healthy" "stopped")).text := by
  refine ⟨?_, ?_, rfl, by decide⟩
  · by_cases h : status = "healthy" ∧ ollama = "running"
    · simp [checkHealth, h]
    · have hne : ("health-status unhealthy" : String) ≠ "health-status healthy" := by
        decide
      simp [checkHealth, h, hne]
  · intro h
    simp [checkHealth, h]

/-- Witness for claim C8 at running and stopped runtime states. -/
theorem checkHealth_display_policy_witness :
    (checkHealth (HealthResponse.success "healthy" "running")).klass
        = "health-status healthy"
    ∧ checkHealth (HealthResponse.success "healthy" "stopped") =
        { text := "⚠ Ollama is not running - Run: ollama serve"
          klass := "health-status unhealthy" } :=
  ⟨(checkHealth_display_policy "healthy" "running").1.mpr ⟨rfl, rfl⟩,
   (checkHealth_display_policy "healthy" "stopped").2.1 (by decide)⟩

/-! ### Claim about the concurrency guard -/

/-- Claim C9: a generate run that passes validation first disables the
generate button and only then issues its single request, and the button is
re-enabled in the final state of every outcome; a test run that passes its
preconditions does the same with the test button. -/
theorem controls_disabled_during_request :
    (∀ (f : FormInput) (net : GenResponse) (ui : UIState),
      validateFormData (collectFormData f) = none →
      (generatePipeline f net ui).2.take 2
          = [UIEvent.genDisabled true, UIEvent.generateRequest (collectFormData f)]
      ∧ (generatePipeline f net ui).2.getLast? = some (UIEvent.genDisabled false)
      ∧ (generatePipeline f net ui).1.generateBtnDisabled = false)
    ∧ (∀ (rawInput : String) (net : TestResponse) (ui : UIState) (sid : String),
        jsTrim rawInput ≠ "" → ui.sessionId = some sid → sid ≠ "" →
      (testPipeline rawInput net ui).2.take 2
          = [UIEvent.testDisabled true, UIEvent.testRequest sid (jsTrim rawInput)]
      ∧ (testPipeline rawInput net ui).2.getLast? = some (UIEvent.testDisabled false)
      ∧ (testPipeline rawInput net ui).1.testBtnDisabled = false) := by
  constructor
  · intro f net ui hv
    cases net <;> simp [generatePipeline, hv]
  · intro rawInput net ui sid h1 hs hsid
    cases net <;> simp [testPipeline, h1, hs, hsid]

/-- Witness for claim C9 on a transport-failing generate run and a
successful test run. -/
theorem controls_disabled_during_request_witness :
    ((generatePipeline sampleForm (GenResponse.transportFailure "x") initUI).2.take 2
        = [UIEvent.genDisabled true, UIEvent.generateRequest (collectFormData sampleForm)]
     ∧ (generatePipeline sampleForm (GenResponse.transportFailure "x") initUI).2.getLast?
        = some (UIEvent.genDisabled false)
     ∧ (generatePipeline sampleForm (GenResponse.transportFailure "x") initUI).1.generateBtnDisabled
        = false)
    ∧ ((testPipeline "hi" (TestResponse.success "ok" none) uiWithSession).2.take 2
        = [UIEvent.testDisabled true, UIEvent.testRequest "sess" (jsTrim "hi")]
     ∧ (testPipeline "hi" (TestResponse.success "ok" none) uiWithSession).2.getLast?
        = some (UIEvent.testDisabled false)
     ∧ (testPipeline "hi" (TestResponse.success "ok" none) uiWithSession).1.testBtnDisabled
        = false) :=
  ⟨controls_disabled_during_request.1 sampleForm (GenResponse.transportFailure "x")
      initUI (by decide),
   controls_disabled_during_request.2 "hi" (TestResponse.success "ok" none)
      uiWithSession "sess" (by decide) rfl (by decide)⟩
